import Mathlib

/-!
Shallow embedding of the media-format catalog core (src/main.rs).

Numeric conventions: the source's `f32`/`f64` arithmetic is modelled by exact
rational arithmetic (`ℚ`); the `f64 → f32` narrowing casts are the identity in
this model, and `f32::ceil` on `value * 100.0` is the exact rational ceiling.
Rust's `u16` dimensions are modelled as `Nat` (the parser enforces the
`< 65536` range where the source relies on the type). `NaN` is not
representable in the rational model, so a modelled `partial_cmp` on rationals
always returns a defined `Ordering`.
-/

/-- Embeds `AppError` (src/main.rs): the two failure kinds of the core. -/
inductive AppError where
  | InvalidResolution (width height : Nat)
  | MissingField (name : String)
deriving DecidableEq, Repr

/-- Embeds `round_down_to_2_decimal_places` (src/main.rs): despite its name it
rounds upward, `(value * 100.0).ceil() / 100.0`. -/
def round_down_to_2_decimal_places (value : ℚ) : ℚ :=
  (⌈value * 100⌉ : ℤ) / 100

/-- Embeds the `FileSizeUnit` enum; the declaration order matters because the
derived Rust `PartialOrd` compares by declaration order. -/
inductive FileSizeUnit where
  | Bytes
  | Kilobytes
  | Megabytes
  | Gigabytes
deriving DecidableEq, Repr

/-- The discriminant of a `FileSizeUnit` variant, i.e. its declaration index;
Rust's derived `PartialOrd` on a fieldless enum compares discriminants. -/
def FileSizeUnit.discriminant : FileSizeUnit → Nat
  | .Bytes => 0
  | .Kilobytes => 1
  | .Megabytes => 2
  | .Gigabytes => 3

/-- Embeds the derived `PartialOrd for FileSizeUnit`: compare by declaration
order; always defined (a fieldless enum comparison never returns `None`). -/
def FileSizeUnit.pcmp (a b : FileSizeUnit) : Option Ordering :=
  some (if a.discriminant < b.discriminant then .lt
        else if a.discriminant = b.discriminant then .eq
        else .gt)

/-- Embeds `struct FileSize { size: f32, unit: FileSizeUnit }`. -/
structure FileSize where
  size : ℚ
  unit : FileSizeUnit
deriving DecidableEq, Repr

/-- Embeds `FileSize::new` (src/main.rs), with the source's `let` chain
`size_in_kilobytes = size_in_bytes / 1024`, `size_in_megabytes =
size_in_kilobytes / 1024`, `size_in_gigabytes = size_in_megabytes / 1024`
inlined. -/
def FileSize.new (size_in_bytes : ℚ) : FileSize :=
  if size_in_bytes / 1024 < 1 then
    ⟨round_down_to_2_decimal_places size_in_bytes, .Bytes⟩
  else if size_in_bytes / 1024 / 1024 < 1 then
    ⟨round_down_to_2_decimal_places (size_in_bytes / 1024), .Kilobytes⟩
  else if size_in_bytes / 1024 / 1024 / 1024 < 1 then
    ⟨round_down_to_2_decimal_places (size_in_bytes / 1024 / 1024), .Megabytes⟩
  else
    ⟨round_down_to_2_decimal_places (size_in_bytes / 1024 / 1024 / 1024), .Gigabytes⟩

/-- Models `f32::partial_cmp` on the rational model of `f32`: `NaN` is not
representable, so the result is always `some`. -/
def ratPcmp (a b : ℚ) : Option Ordering :=
  some (if a < b then .lt else if a = b then .eq else .gt)

/-- Embeds `PartialOrd for FileSize::partial_cmp` (src/main.rs): if the units
are equal compare the sizes, otherwise compare the units. In the source each
inner comparison is unwrapped and rewrapped in `Some`; in the model the inner
comparisons are always `some`, and `Some(o.unwrap())` collapses to `o`. -/
def FileSize.pcmp (x y : FileSize) : Option Ordering :=
  if x.unit = y.unit then ratPcmp x.size y.size
  else FileSizeUnit.pcmp x.unit y.unit

/-- Models Rust's `PartialOrd::le` for `FileSize`: `partial_cmp` yields
`Less` or `Equal`. -/
def FileSize.le (x y : FileSize) : Prop :=
  FileSize.pcmp x y = some .lt ∨ FileSize.pcmp x y = some .eq

/-- Spec vocabulary (spec §4.1): the byte factor of each unit, used to state
that a displayed size never understates the raw byte count. -/
def FileSizeUnit.factor : FileSizeUnit → ℚ
  | .Bytes => 1
  | .Kilobytes => 1024
  | .Megabytes => 1024 * 1024
  | .Gigabytes => 1024 * 1024 * 1024

/-- Embeds the `Resolution` enum (nine canonical tiers). -/
inductive Resolution where
  | P144
  | P240
  | P360
  | P480
  | P720
  | P1080
  | P1440
  | P2160
  | P4320
deriving DecidableEq, Repr

/-- Embeds `Resolution::try_new` (src/main.rs): the Rust `match` on
`(width, height)` with arms `(4320, _) | (_, 4320) => P4320` down to
`(144, _) | (_, 144) => P144`, else `InvalidResolution`. -/
def Resolution.try_new (width height : Nat) : Except AppError Resolution :=
  if width = 4320 ∨ height = 4320 then .ok .P4320
  else if width = 2160 ∨ height = 2160 then .ok .P2160
  else if width = 1440 ∨ height = 1440 then .ok .P1440
  else if width = 1080 ∨ height = 1080 then .ok .P1080
  else if width = 720 ∨ height = 720 then .ok .P720
  else if width = 480 ∨ height = 480 then .ok .P480
  else if width = 360 ∨ height = 360 then .ok .P360
  else if width = 240 ∨ height = 240 then .ok .P240
  else if width = 144 ∨ height = 144 then .ok .P144
  else .error (.InvalidResolution width height)

/-- Spec vocabulary (spec §4.2): the nine canonical tier values in descending
order. -/
def canonicalTiers : List Nat := [4320, 2160, 1440, 1080, 720, 480, 360, 240, 144]

/-- Spec vocabulary: the `Resolution` variant named by a canonical tier value
(unused fallback `P144` for non-canonical arguments). -/
def canonicalToRes (t : Nat) : Resolution :=
  if t = 4320 then .P4320
  else if t = 2160 then .P2160
  else if t = 1440 then .P1440
  else if t = 1080 then .P1080
  else if t = 720 then .P720
  else if t = 480 then .P480
  else if t = 360 then .P360
  else if t = 240 then .P240
  else .P144

/-- Embeds the `FileEncoding` enum. -/
inductive FileEncoding where
  | VideoAndAudio
  | VideoOnly
  | AudioOnly
  | Image
  | Unknown
deriving DecidableEq, Repr

/-- Embeds `struct RawFileFormat` (src/main.rs). `u16` fields are `Nat`
(range-checked at parse time), `f64` fields are `ℚ`. -/
structure RawFileFormat where
  format_id : String
  ext : String
  filesize : Option ℚ
  acodec : String
  vcodec : String
  height : Option Nat
  width : Option Nat
  tbr : Option ℚ
deriving DecidableEq, Repr

/-- Embeds `impl From<RawFileFormat> for FileEncoding` (src/main.rs): the Rust
`match` on `(acodec, vcodec, width, height)` with its guard clauses, rendered
as an if-chain in arm order. The fourth arm's condition is written identically
to the second arm's, as in the source. -/
def FileEncoding.ofRaw (value : RawFileFormat) : FileEncoding :=
  if value.width.isSome ∧ value.height.isSome ∧ value.acodec ≠ "none" ∧ value.vcodec ≠ "none" then
    .VideoAndAudio
  else if value.acodec = "none" ∧ value.width.isSome ∧ value.height.isSome ∧ value.vcodec ≠ "none" then
    .VideoOnly
  else if value.vcodec = "none" ∧ value.width.isNone ∧ value.height.isNone ∧ value.acodec ≠ "none" then
    .AudioOnly
  else if value.acodec = "none" ∧ value.width.isSome ∧ value.height.isSome ∧ value.vcodec ≠ "none" then
    .Image
  else
    .Unknown

/-- Embeds `struct FileFormat` (src/main.rs). -/
structure FileFormat where
  id : String
  extension : String
  resolution : Option Resolution
  file_size : FileSize
  file_encoding : FileEncoding
deriving DecidableEq, Repr

/-- Embeds the first statement of `FileFormat::try_new`: the `match` on
`(raw.width, raw.height)` which resolves a `Resolution` when both dimensions
are present (propagating `InvalidResolution`) and yields `None` otherwise. -/
def resolutionStep (raw : RawFileFormat) : Except AppError (Option Resolution) :=
  match raw.width, raw.height with
  | some width, some height =>
    match Resolution.try_new width height with
    | .ok r => .ok (some r)
    | .error e => .error e
  | _, _ => .ok none

/-- Embeds `FileFormat::try_new` (src/main.rs): resolution step, then size
(direct from `filesize`, else derived from `duration * tbr * 125`, else
`MissingField("tbr")`), then the record with the encoding classified from the
raw fields. The single `Ok(FileFormat { .. })` of the source is inlined into
each successful size branch. -/
def FileFormat.try_new (raw : RawFileFormat) (duration : ℚ) : Except AppError FileFormat :=
  match resolutionStep raw with
  | .error e => .error e
  | .ok resolution =>
    match raw.filesize with
    | some filesize =>
      .ok ⟨raw.format_id, raw.ext, resolution, FileSize.new filesize, FileEncoding.ofRaw raw⟩
    | none =>
      match raw.tbr with
      | none => .error (.MissingField "tbr")
      | some tbr =>
        .ok ⟨raw.format_id, raw.ext, resolution, FileSize.new (duration * tbr * 125),
             FileEncoding.ofRaw raw⟩

/-- Models `serde_json::Value`: JSON numbers are exact rationals (the source
reads them through `as_f64`). -/
inductive Json where
  | null
  | bool (b : Bool)
  | num (q : ℚ)
  | str (s : String)
  | arr (elems : List Json)
  | obj (fields : List (String × Json))

/-- Models `Value::get(key)`: field lookup on an object, `None` otherwise. -/
def Json.getField (j : Json) (key : String) : Option Json :=
  match j with
  | .obj fields => fields.lookup key
  | _ => none

/-- Models `Value::as_str`. -/
def Json.asStr : Json → Option String
  | .str s => some s
  | _ => none

/-- Models `Value::as_f64` on the rational number model. -/
def Json.asNum : Json → Option ℚ
  | .num q => some q
  | _ => none

/-- Models `Value::as_array`. -/
def Json.asArr : Json → Option (List Json)
  | .arr elems => some elems
  | _ => none

/-- Models the derived deserialization of a required `String` field of
`RawFileFormat`: missing or non-string values are errors. -/
def reqStr (fields : List (String × Json)) (key : String) : Except String String :=
  match fields.lookup key with
  | none => .error ("missing field " ++ key)
  | some (.str s) => .ok s
  | some _ => .error ("invalid type for field " ++ key)

/-- Models the derived deserialization of a `String` field carrying
`#[serde(default = "default_codec")]`: a missing field takes the default
`"unknown"`; a present non-string value is an error. -/
def strOrDefault (fields : List (String × Json)) (key dflt : String) : Except String String :=
  match fields.lookup key with
  | none => .ok dflt
  | some (.str s) => .ok s
  | some _ => .error ("invalid type for field " ++ key)

/-- Models the derived deserialization of an `Option<f64>` field: missing or
null is `none`, a number is `some`, anything else is an error. -/
def optNum (fields : List (String × Json)) (key : String) : Except String (Option ℚ) :=
  match fields.lookup key with
  | none => .ok none
  | some .null => .ok none
  | some (.num q) => .ok (some q)
  | some _ => .error ("invalid type for field " ++ key)

/-- Models the derived deserialization of an `Option<u16>` field: missing or
null is `none`, an integer number in `[0, 65536)` is `some`, anything else
(fractional, negative, out of range, non-number) is an error. -/
def optU16 (fields : List (String × Json)) (key : String) : Except String (Option Nat) :=
  match fields.lookup key with
  | none => .ok none
  | some .null => .ok none
  | some (.num q) =>
    if q.den = 1 ∧ 0 ≤ q.num ∧ q.num < 65536 then .ok (some q.num.toNat)
    else .error ("invalid value for field " ++ key)
  | some _ => .error ("invalid type for field " ++ key)

/-- Models the derived `Deserialize for RawFileFormat` from a JSON value:
requires an object, reads each field per serde's rules (unknown extra fields
are ignored by the lookup-based reading). -/
def RawFileFormat.fromJson (j : Json) : Except String RawFileFormat :=
  match j with
  | .obj fields => do
    let format_id ← reqStr fields "format_id"
    let ext ← reqStr fields "ext"
    let filesize ← optNum fields "filesize"
    let acodec ← strOrDefault fields "acodec" "unknown"
    let vcodec ← strOrDefault fields "vcodec" "unknown"
    let height ← optU16 fields "height"
    let width ← optU16 fields "width"
    let tbr ← optNum fields "tbr"
    .ok ⟨format_id, ext, filesize, acodec, vcodec, height, width, tbr⟩
  | _ => .error "invalid type: expected object"

/-- Embeds `struct FileDetails` (src/main.rs). -/
structure FileDetails where
  title : String
  duration : ℚ
  ext : String
  extractor : String
  extractor_key : String
  formats : List FileFormat
deriving DecidableEq, Repr

/-- Embeds the `for format in json_formats` loop of
`FileDetails::deserialize`: a raw-record deserialization error aborts with
that error (the source's `map_err(..)?`), a `FileFormat::try_new` error drops
the element (`_ => continue`), and successes are accumulated in order. -/
def parseFormats (jsonFormats : List Json) (duration : ℚ) : Except String (List FileFormat) :=
  match jsonFormats with
  | [] => .ok []
  | j :: rest =>
    match RawFileFormat.fromJson j with
    | .error e => .error e
    | .ok raw =>
      match FileFormat.try_new raw duration with
      | .ok file_format =>
        match parseFormats rest duration with
        | .error e => .error e
        | .ok tail => .ok (file_format :: tail)
      | .error _ => parseFormats rest duration

/-- Embeds `impl Deserialize for FileDetails` (src/main.rs): the five
fail-fast top-level lookups, then the formats array, then the per-element
loop. -/
def FileDetails.deserialize (value : Json) : Except String FileDetails :=
  match (value.getField "title").bind Json.asStr with
  | none => .error "missing title field"
  | some title =>
  match (value.getField "duration").bind Json.asNum with
  | none => .error "missing duration field"
  | some duration =>
  match (value.getField "ext").bind Json.asStr with
  | none => .error "missing ext field"
  | some ext =>
  match (value.getField "extractor").bind Json.asStr with
  | none => .error "missing extractor field"
  | some extractor =>
  match (value.getField "extractor_key").bind Json.asStr with
  | none => .error "missing extractor_key field"
  | some extractor_key =>
  match (value.getField "formats").bind Json.asArr with
  | none => .error "missing formats field"
  | some json_formats =>
  match parseFormats json_formats duration with
  | .error e => .error e
  | .ok formats => .ok ⟨title, duration, ext, extractor, extractor_key, formats⟩

/-- Embeds `struct BestFormats`; the two `HashMap<Resolution, FileFormat>`
fields are modelled as association lists. -/
structure BestFormats where
  video_and_audio : List (Resolution × FileFormat)
  video_only : List (Resolution × FileFormat)
  audio_only : Option FileFormat
deriving DecidableEq, Repr

/-- Embeds `BestFormats::new`: empty maps, no audio-only entry. -/
def BestFormats.new : BestFormats :=
  ⟨[], [], none⟩

/-- Embeds the selection performed by `get_file_formats` on the parsed
catalog's formats: in the source the entire loop that would populate
`best_formats` is commented out, so the live code constructs
`BestFormats::new()` and returns it untouched, whatever the format list is. -/
def get_file_formats_selection ( _formats : List FileFormat) : BestFormats :=
  BestFormats.new

/-! Helper lemmas about the upward rounding and the scaler. -/

theorem rdtd_mono {a b : ℚ} (hab : a ≤ b) :
    round_down_to_2_decimal_places a ≤ round_down_to_2_decimal_places b := by
  unfold round_down_to_2_decimal_places
  have h : (⌈a * 100⌉ : ℤ) ≤ ⌈b * 100⌉ :=
    Int.ceil_mono (by nlinarith)
  have h100 : (0 : ℚ) < 100 := by norm_num
  exact (div_le_div_right h100).mpr (by exact_mod_cast h)

theorem rdtd_ge (a : ℚ) : a ≤ round_down_to_2_decimal_places a := by
  unfold round_down_to_2_decimal_places
  rw [le_div_iff (by norm_num : (0:ℚ) < 100)]
  exact Int.le_ceil (a * 100)

theorem rdtd_nonneg {a : ℚ} (ha : 0 ≤ a) : 0 ≤ round_down_to_2_decimal_places a :=
  le_trans ha (rdtd_ge a)

theorem rdtd_le_1024 {a : ℚ} (h : a < 1024) : round_down_to_2_decimal_places a ≤ 1024 := by
  unfold round_down_to_2_decimal_places
  have h1 : (⌈a * 100⌉ : ℤ) ≤ 102400 := by
    rw [Int.ceil_le]
    push_cast
    nlinarith
  rw [div_le_iff (by norm_num : (0:ℚ) < 100)]
  calc ((⌈a * 100⌉ : ℤ) : ℚ) ≤ 102400 := by exact_mod_cast h1
  _ = 1024 * 100 := by norm_num

theorem FileSize.new_eq (b : ℚ) :
    FileSize.new b =
      if b < 1024 then ⟨round_down_to_2_decimal_places b, .Bytes⟩
      else if b < 1024 * 1024 then ⟨round_down_to_2_decimal_places (b / 1024), .Kilobytes⟩
      else if b < 1024 * 1024 * 1024 then
        ⟨round_down_to_2_decimal_places (b / 1024 / 1024), .Megabytes⟩
      else ⟨round_down_to_2_decimal_places (b / 1024 / 1024 / 1024), .Gigabytes⟩ := by
  unfold FileSize.new
  have e1 : b / 1024 < 1 ↔ b < 1024 := div_lt_one (by norm_num)
  have e2 : b / 1024 / 1024 < 1 ↔ b < 1024 * 1024 := by
    rw [div_div, div_lt_one (by norm_num)]
  have e3 : b / 1024 / 1024 / 1024 < 1 ↔ b < 1024 * 1024 * 1024 := by
    rw [div_div, div_div, div_lt_one (by norm_num), mul_assoc]
  simp only [e1, e2, e3]

theorem FileSize.le_of_same_unit {s1 s2 : ℚ} {u : FileSizeUnit} (h : s1 ≤ s2) :
    FileSize.le ⟨s1, u⟩ ⟨s2, u⟩ := by
  unfold FileSize.le FileSize.pcmp ratPcmp
  rcases lt_or_eq_of_le h with hlt | heq
  · left
    simp [hlt]
  · subst heq
    right
    simp

theorem FileSize.le_of_unit_lt {s1 s2 : ℚ} {u v : FileSizeUnit}
    (h : u.discriminant < v.discriminant) : FileSize.le ⟨s1, u⟩ ⟨s2, v⟩ := by
  have hne : u ≠ v := by
    intro heq
    rw [heq] at h
    exact lt_irrefl _ h
  left
  unfold FileSize.pcmp FileSizeUnit.pcmp
  rw [if_neg hne, if_pos h]

/-! Claim theorems. -/

/-- C4 (confirmed): the order on `FileSize` is unit-bucket-first — when the
units differ, the value with the smaller unit (by declaration order
Bytes < Kilobytes < Megabytes < Gigabytes) compares strictly less regardless
of either magnitude, and the magnitudes are consulted only when the units are
equal. -/
theorem c4_filesize_order_unit_bucket_first (x y : FileSize) :
    (x.unit.discriminant < y.unit.discriminant → FileSize.pcmp x y = some .lt) ∧
    (x.unit = y.unit → FileSize.pcmp x y = ratPcmp x.size y.size) := by
  constructor
  · intro hlt
    have hne : x.unit ≠ y.unit := by
      intro heq
      rw [heq] at hlt
      exact lt_irrefl _ hlt
    unfold FileSize.pcmp FileSizeUnit.pcmp
    rw [if_neg hne, if_pos hlt]
  · intro heq
    unfold FileSize.pcmp
    rw [if_pos heq]

/-- Witness for C4 at the spec's own example: `1023.99KB < 1.00MB` even
though the kilobyte magnitude is numerically larger. -/
theorem c4_filesize_order_unit_bucket_first_witness :
    FileSize.pcmp ⟨102399/100, .Kilobytes⟩ ⟨1, .Megabytes⟩ = some .lt :=
  (c4_filesize_order_unit_bucket_first ⟨102399/100, .Kilobytes⟩ ⟨1, .Megabytes⟩).1 (by decide)

/-- C9 (confirmed): on the image of `FileSize::new` over non-negative finite
byte counts, `partial_cmp` is total — it always returns `some` ordering. In
this embedding the `f32` magnitudes are exact rationals, so no `NaN` can be
produced by the scaler and the source's two inner `unwrap`s always receive a
defined comparison. -/
theorem c9_pcmp_total_on_new_image (b1 b2 : ℚ) (h1 : 0 ≤ b1) (h2 : 0 ≤ b2) :
    (FileSize.pcmp (FileSize.new b1) (FileSize.new b2)).isSome = true := by
  unfold FileSize.pcmp
  split
  · simp [ratPcmp]
  · simp [FileSizeUnit.pcmp]

/-- Witness for C9 at byte counts 0 and 1. -/
theorem c9_pcmp_total_on_new_image_witness :
    (FileSize.pcmp (FileSize.new 0) (FileSize.new 1)).isSome = true :=
  c9_pcmp_total_on_new_image 0 1 (by norm_num) (by norm_num)

/-- C8 (confirmed): the `Image` branch of the encoding classifier is dead —
its guard is syntactically the `VideoOnly` guard, which is tested earlier, so
no input whatsoever is classified as `Image`. -/
theorem c8_image_branch_dead (raw : RawFileFormat) :
    FileEncoding.ofRaw raw ≠ FileEncoding.Image := by
  unfold FileEncoding.ofRaw
  split_ifs <;> decide

/-- C2 example input 1: audio codec "unknown", video codec "vp9",
width 1920, height 1080. -/
def c2Raw1 : RawFileFormat := ⟨"", "", none, "unknown", "vp9", some 1080, some 1920, none⟩

/-- C2 example input 2: audio codec "aac", video codec "unknown", no
dimensions. -/
def c2Raw2 : RawFileFormat := ⟨"", "", none, "aac", "unknown", none, none, none⟩

/-- C2 example input 3: both codecs "unknown", no dimensions. -/
def c2Raw3 : RawFileFormat := ⟨"", "", none, "unknown", "unknown", none, none, none⟩

/-- C2 counterexample: the first §8 example is classified `VideoAndAudio`,
not `VideoOnly` (the first match arm only excludes the literal codec string
"none", and "unknown" is not "none"), and the second is classified `Unknown`,
not `AudioOnly` (the `AudioOnly` arm requires the video codec to be the
literal "none"). -/
theorem c2_examples_counterexample :
    FileEncoding.ofRaw c2Raw1 ≠ FileEncoding.VideoOnly ∧
    FileEncoding.ofRaw c2Raw2 ≠ FileEncoding.AudioOnly := by
  constructor <;> decide

/-- C2 amended: the classifier maps the three §8 example inputs per the code's
match arms — ("unknown","vp9",1920,1080) to `VideoAndAudio`,
("aac","unknown",None,None) to `Unknown`, and ("unknown","unknown",None,None)
to `Unknown`. -/
theorem c2_examples_amended :
    FileEncoding.ofRaw c2Raw1 = FileEncoding.VideoAndAudio ∧
    FileEncoding.ofRaw c2Raw2 = FileEncoding.Unknown ∧
    FileEncoding.ofRaw c2Raw3 = FileEncoding.Unknown := by
  refine ⟨?_, ?_, ?_⟩ <;> decide

/-- C3 (code_bug evidence): the selection loop of `get_file_formats` is
commented out in the source, so the live selection leaves `BestFormats::new()`
untouched — two `VideoAndAudio` formats at 720p with sizes 10MB and 12MB
produce an empty `video_and_audio` mapping instead of retaining the 12MB
entry under the 720p key (an empty input does yield empty mappings and no
audio-only entry, as that is all the live code can produce). -/
theorem c3_live_selection_is_empty :
    (get_file_formats_selection
        [⟨"a", "mp4", some .P720, ⟨10, .Megabytes⟩, .VideoAndAudio⟩,
         ⟨"b", "mp4", some .P720, ⟨12, .Megabytes⟩, .VideoAndAudio⟩]).video_and_audio = [] ∧
    (get_file_formats_selection []).video_and_audio = [] ∧
    (get_file_formats_selection []).video_only = [] ∧
    (get_file_formats_selection []).audio_only = none :=
  ⟨rfl, rfl, rfl, rfl⟩

/-- C5 counterexample: at 1023.995 bytes (a non-negative byte count, reachable
from bitrate math), the scaler stays in the Bytes bucket but the upward
rounding at two decimals lifts the magnitude to exactly 1024, so the magnitude
is not in `[0, 1024)` even though the unit is not Gigabytes. -/
theorem c5_magnitude_can_reach_1024 :
    (0 : ℚ) ≤ 1023995/1000 ∧
    (FileSize.new (1023995/1000)).unit = FileSizeUnit.Bytes ∧
    ¬ (FileSize.new (1023995/1000)).size < 1024 := by
  have hceil : (⌈(1023995:ℚ)/1000 * 100⌉ : ℤ) = 102400 := by
    rw [Int.ceil_eq_iff]
    norm_num
  have hnew : FileSize.new (1023995/1000) = ⟨1024, .Bytes⟩ := by
    rw [FileSize.new_eq]
    rw [if_pos (by norm_num : (1023995:ℚ)/1000 < 1024)]
    unfold round_down_to_2_decimal_places
    rw [hceil]
    norm_num
  rw [hnew]
  refine ⟨by norm_num, rfl, by norm_num⟩

/-- C5 amended: for every byte count `b ≥ 0`, the scaled magnitude lies in
`[0, 1024]` (the right endpoint 1024 itself is attainable through the upward
rounding) unless the unit is Gigabytes, and the displayed value never
understates `b`: the magnitude is the scaled value rounded upward at two
decimal places, so magnitude times the unit's byte factor is at least `b`. -/
theorem c5_scaler_bounds_amended (b : ℚ) (hb : 0 ≤ b) :
    0 ≤ (FileSize.new b).size ∧
    ((FileSize.new b).unit ≠ FileSizeUnit.Gigabytes → (FileSize.new b).size ≤ 1024) ∧
    b ≤ (FileSize.new b).size * (FileSize.new b).unit.factor := by
  rw [FileSize.new_eq b]
  split_ifs with k1 k2 k3
  · refine ⟨rdtd_nonneg hb, fun _ => rdtd_le_1024 k1, ?_⟩
    have h := rdtd_ge b
    simp only [FileSizeUnit.factor, mul_one]
    exact h
  · push_neg at k1
    have h1 : b / 1024 < 1024 := by
      rw [div_lt_iff₀ (by norm_num : (0:ℚ) < 1024)]
      linarith
    have h0 : (0:ℚ) ≤ b / 1024 := by positivity
    refine ⟨rdtd_nonneg h0, fun _ => rdtd_le_1024 h1, ?_⟩
    have hmul := mul_le_mul_of_nonneg_right (rdtd_ge (b / 1024))
      (by norm_num : (0:ℚ) ≤ 1024)
    rw [div_mul_cancel₀ b (by norm_num : (1024:ℚ) ≠ 0)] at hmul
    simpa [FileSizeUnit.factor] using hmul
  · push_neg at k2
    have h1 : b / 1024 / 1024 < 1024 := by
      rw [div_div, div_lt_iff₀ (by norm_num : (0:ℚ) < 1024 * 1024)]
      linarith
    have h0 : (0:ℚ) ≤ b / 1024 / 1024 := by positivity
    refine ⟨rdtd_nonneg h0, fun _ => rdtd_le_1024 h1, ?_⟩
    have hmul := mul_le_mul_of_nonneg_right (rdtd_ge (b / 1024 / 1024))
      (by norm_num : (0:ℚ) ≤ 1024 * 1024)
    have hcan : b / 1024 / 1024 * (1024 * 1024) = b := by
      field_simp
    rw [hcan] at hmul
    simpa [FileSizeUnit.factor] using hmul
  · push_neg at k3
    have h0 : (0:ℚ) ≤ b / 1024 / 1024 / 1024 := by positivity
    refine ⟨rdtd_nonneg h0, fun hg => absurd rfl hg, ?_⟩
    have hmul := mul_le_mul_of_nonneg_right (rdtd_ge (b / 1024 / 1024 / 1024))
      (by norm_num : (0:ℚ) ≤ 1024 * 1024 * 1024)
    have hcan : b / 1024 / 1024 / 1024 * (1024 * 1024 * 1024) = b := by
      field_simp
    rw [hcan] at hmul
    simpa [FileSizeUnit.factor] using hmul

/-- Witness for the amended C5 at `b = 1000000`: the scaler yields
`976.57 KB`, whose bounds and no-understatement property follow from the
theorem. -/
theorem c5_scaler_bounds_amended_witness :
    0 ≤ (FileSize.new 1000000).size ∧
    ((FileSize.new 1000000).unit ≠ FileSizeUnit.Gigabytes →
      (FileSize.new 1000000).size ≤ 1024) ∧
    (1000000 : ℚ) ≤ (FileSize.new 1000000).size * (FileSize.new 1000000).unit.factor :=
  c5_scaler_bounds_amended 1000000 (by norm_num)

/-- C10 (confirmed): the scaler is monotone with respect to the
unit-bucket-first order — growing the byte count never decreases the resulting
`FileSize`, because the unit bucket is monotone in the byte count and the
upward rounding is monotone within a bucket. -/
theorem c10_new_monotone (b1 b2 : ℚ) (h0 : 0 ≤ b1) (h12 : b1 ≤ b2) :
    FileSize.le (FileSize.new b1) (FileSize.new b2) := by
  rw [FileSize.new_eq b1, FileSize.new_eq b2]
  split_ifs <;>
    first
      | exact FileSize.le_of_same_unit (rdtd_mono h12)
      | exact FileSize.le_of_same_unit (rdtd_mono (by gcongr))
      | exact FileSize.le_of_unit_lt (by decide)
      | linarith

/-- Witness for C10 at byte counts 0 and 2000: `0B ≤ 1.96KB` in the
unit-bucket-first order. -/
theorem c10_new_monotone_witness :
    FileSize.le (FileSize.new 0) (FileSize.new 2000) :=
  c10_new_monotone 0 2000 (by norm_num) (by norm_num)

/-- C6 (confirmed): `Resolution::try_new` returns the tier of the highest
canonical value that equals either dimension, and fails with
`InvalidResolution(width, height)` exactly when neither dimension equals any
canonical value. -/
theorem c6_resolution_classifier (width height : Nat) :
    (∀ t, t ∈ canonicalTiers → (width = t ∨ height = t) →
        (∀ u ∈ canonicalTiers, (width = u ∨ height = u) → u ≤ t) →
        Resolution.try_new width height = .ok (canonicalToRes t)) ∧
    (Resolution.try_new width height = .error (.InvalidResolution width height) ↔
        ∀ t ∈ canonicalTiers, width ≠ t ∧ height ≠ t) := by
  constructor
  · intro t ht hmatch hmax
    have hm4320 := hmax 4320 (by simp [canonicalTiers])
    have hm2160 := hmax 2160 (by simp [canonicalTiers])
    have hm1440 := hmax 1440 (by simp [canonicalTiers])
    have hm1080 := hmax 1080 (by simp [canonicalTiers])
    have hm720 := hmax 720 (by simp [canonicalTiers])
    have hm480 := hmax 480 (by simp [canonicalTiers])
    have hm360 := hmax 360 (by simp [canonicalTiers])
    have hm240 := hmax 240 (by simp [canonicalTiers])
    simp only [canonicalTiers, List.mem_cons, List.not_mem_nil, or_false] at ht
    unfold Resolution.try_new
    rcases ht with rfl | rfl | rfl | rfl | rfl | rfl | rfl | rfl | rfl
    · rw [if_pos hmatch]
      rfl
    · rw [if_neg (fun hc => absurd (hm4320 hc) (by omega)), if_pos hmatch]
      rfl
    · rw [if_neg (fun hc => absurd (hm4320 hc) (by omega)),
          if_neg (fun hc => absurd (hm2160 hc) (by omega)), if_pos hmatch]
      rfl
    · rw [if_neg (fun hc => absurd (hm4320 hc) (by omega)),
          if_neg (fun hc => absurd (hm2160 hc) (by omega)),
          if_neg (fun hc => absurd (hm1440 hc) (by omega)), if_pos hmatch]
      rfl
    · rw [if_neg (fun hc => absurd (hm4320 hc) (by omega)),
          if_neg (fun hc => absurd (hm2160 hc) (by omega)),
          if_neg (fun hc => absurd (hm1440 hc) (by omega)),
          if_neg (fun hc => absurd (hm1080 hc) (by omega)), if_pos hmatch]
      rfl
    · rw [if_neg (fun hc => absurd (hm4320 hc) (by omega)),
          if_neg (fun hc => absurd (hm2160 hc) (by omega)),
          if_neg (fun hc => absurd (hm1440 hc) (by omega)),
          if_neg (fun hc => absurd (hm1080 hc) (by omega)),
          if_neg (fun hc => absurd (hm720 hc) (by omega)), if_pos hmatch]
      rfl
    · rw [if_neg (fun hc => absurd (hm4320 hc) (by omega)),
          if_neg (fun hc => absurd (hm2160 hc) (by omega)),
          if_neg (fun hc => absurd (hm1440 hc) (by omega)),
          if_neg (fun hc => absurd (hm1080 hc) (by omega)),
          if_neg (fun hc => absurd (hm720 hc) (by omega)),
          if_neg (fun hc => absurd (hm480 hc) (by omega)), if_pos hmatch]
      rfl
    · rw [if_neg (fun hc => absurd (hm4320 hc) (by omega)),
          if_neg (fun hc => absurd (hm2160 hc) (by omega)),
          if_neg (fun hc => absurd (hm1440 hc) (by omega)),
          if_neg (fun hc => absurd (hm1080 hc) (by omega)),
          if_neg (fun hc => absurd (hm720 hc) (by omega)),
          if_neg (fun hc => absurd (hm480 hc) (by omega)),
          if_neg (fun hc => absurd (hm360 hc) (by omega)), if_pos hmatch]
      rfl
    · rw [if_neg (fun hc => absurd (hm4320 hc) (by omega)),
          if_neg (fun hc => absurd (hm2160 hc) (by omega)),
          if_neg (fun hc => absurd (hm1440 hc) (by omega)),
          if_neg (fun hc => absurd (hm1080 hc) (by omega)),
          if_neg (fun hc => absurd (hm720 hc) (by omega)),
          if_neg (fun hc => absurd (hm480 hc) (by omega)),
          if_neg (fun hc => absurd (hm360 hc) (by omega)),
          if_neg (fun hc => absurd (hm240 hc) (by omega)), if_pos hmatch]
      rfl
  · unfold Resolution.try_new
    constructor
    · intro herr
      split_ifs at herr
      intro t ht
      simp only [canonicalTiers, List.mem_cons, List.not_mem_nil, or_false] at ht
      rcases ht with rfl | rfl | rfl | rfl | rfl | rfl | rfl | rfl | rfl <;> tauto
    · intro hall
      have h4320 := hall 4320 (by simp [canonicalTiers])
      have h2160 := hall 2160 (by simp [canonicalTiers])
      have h1440 := hall 1440 (by simp [canonicalTiers])
      have h1080 := hall 1080 (by simp [canonicalTiers])
      have h720 := hall 720 (by simp [canonicalTiers])
      have h480 := hall 480 (by simp [canonicalTiers])
      have h360 := hall 360 (by simp [canonicalTiers])
      have h240 := hall 240 (by simp [canonicalTiers])
      have h144 := hall 144 (by simp [canonicalTiers])
      rw [if_neg (by tauto), if_neg (by tauto), if_neg (by tauto), if_neg (by tauto),
          if_neg (by tauto), if_neg (by tauto), if_neg (by tauto), if_neg (by tauto),
          if_neg (by tauto)]

/-- Witness for C6 at the spec's examples: `(1080, 1)` resolves to `1080p`
(with 1080 the highest — indeed only — canonical match), and `(7, 9)` fails
with `InvalidResolution(7, 9)`. -/
theorem c6_resolution_classifier_witness :
    Resolution.try_new 1080 1 = .ok Resolution.P1080 ∧
    Resolution.try_new 7 9 = .error (.InvalidResolution 7 9) :=
  ⟨(c6_resolution_classifier 1080 1).1 1080 (by decide) (by decide) (by decide),
   (c6_resolution_classifier 7 9).2.mpr (by decide)⟩

/-- C7 (confirmed): when the resolution step of the normalizer succeeds, the
size is scaled from `filesize` when present; otherwise it is derived from
`duration * tbr * 125` when `tbr` is present (duration 10s and tbr 800 give
1,000,000 bytes), and normalization fails with `MissingField("tbr")` when both
are absent. -/
theorem c7_size_derivation (raw : RawFileFormat) (duration : ℚ) (res : Option Resolution)
    (hres : resolutionStep raw = .ok res) :
    (∀ fs, raw.filesize = some fs →
        FileFormat.try_new raw duration =
          .ok ⟨raw.format_id, raw.ext, res, FileSize.new fs, FileEncoding.ofRaw raw⟩) ∧
    (raw.filesize = none → ∀ t, raw.tbr = some t →
        FileFormat.try_new raw duration =
          .ok ⟨raw.format_id, raw.ext, res, FileSize.new (duration * t * 125),
               FileEncoding.ofRaw raw⟩) ∧
    (raw.filesize = none → raw.tbr = none →
        FileFormat.try_new raw duration = .error (.MissingField "tbr")) ∧
    (raw.filesize = none → raw.tbr = some 800 → duration = 10 →
        FileFormat.try_new raw duration =
          .ok ⟨raw.format_id, raw.ext, res, FileSize.new 1000000,
               FileEncoding.ofRaw raw⟩) := by
  refine ⟨?_, ?_, ?_, ?_⟩
  · intro fs hfs
    unfold FileFormat.try_new
    rw [hres, hfs]
  · intro hfs t htbr
    unfold FileFormat.try_new
    rw [hres, hfs, htbr]
  · intro hfs htbr
    unfold FileFormat.try_new
    rw [hres, hfs, htbr]
  · intro hfs htbr hdur
    subst hdur
    unfold FileFormat.try_new
    rw [hres, hfs, htbr]
    norm_num

/-- C7 example input: no filesize, tbr 800, no dimensions (format "18"). -/
def c7Raw : RawFileFormat := ⟨"18", "mp4", none, "aac", "avc1", none, none, some 800⟩

/-- Witness for C7 at duration 10 and tbr 800: the derived byte count is
1,000,000 and normalization succeeds. -/
theorem c7_size_derivation_witness :
    FileFormat.try_new c7Raw 10 =
      .ok ⟨"18", "mp4", none, FileSize.new 1000000, FileEncoding.ofRaw c7Raw⟩ :=
  (c7_size_derivation c7Raw 10 none rfl).2.2.2 rfl rfl rfl

theorem parseFormats_ok (jsonFormats : List Json) (duration : ℚ)
    (h : ∀ j ∈ jsonFormats, ∃ raw, RawFileFormat.fromJson j = .ok raw) :
    parseFormats jsonFormats duration = .ok (jsonFormats.filterMap fun j =>
      (RawFileFormat.fromJson j).toOption.bind fun raw =>
        (FileFormat.try_new raw duration).toOption) := by
  induction jsonFormats with
  | nil => rfl
  | cons j rest ih =>
    obtain ⟨raw, hraw⟩ := h j (List.mem_cons_self j rest)
    have hrest := ih (fun x hx => h x (List.mem_cons_of_mem j hx))
    unfold parseFormats
    cases htn : FileFormat.try_new raw duration with
    | ok f =>
      simp [hraw, htn, hrest, Except.toOption, List.filterMap_cons]
    | error e =>
      simp [hraw, htn, hrest, Except.toOption, List.filterMap_cons]

/-- C1 counterexample input: a payload whose six required top-level fields
are all present and well-typed, and whose `formats` array holds a single
malformed element (an object with no `format_id`). -/
def c1MalformedPayload : Json :=
  .obj [("title", .str "t"), ("duration", .num 10), ("ext", .str "mp4"),
        ("extractor", .str "generic"), ("extractor_key", .str "Generic"),
        ("formats", .arr [.obj []])]

/-- The same payload with the malformed element removed. -/
def c1PrunedPayload : Json :=
  .obj [("title", .str "t"), ("duration", .num 10), ("ext", .str "mp4"),
        ("extractor", .str "generic"), ("extractor_key", .str "Generic"),
        ("formats", .arr [])]

/-- C1 counterexample: with all required top-level fields present and
well-typed, a single malformed element of `formats` (missing `format_id`, so
it fails raw-record deserialization rather than normalization) aborts the
whole catalog parse — the identical payload without that element parses
fine. -/
theorem c1_raw_element_aborts_parse :
    FileDetails.deserialize c1MalformedPayload = .error "missing field format_id" ∧
    FileDetails.deserialize c1PrunedPayload =
      .ok ⟨"t", 10, "mp4", "generic", "Generic", []⟩ :=
  ⟨rfl, rfl⟩

/-- C1 amended: for every payload whose required top-level fields are present
and well-typed and whose `formats` elements all deserialize as raw variant
records, parsing succeeds and the resulting `formats` contains exactly the
variants on which `FileFormat::try_new` (normalization) succeeded, in their
original relative order — normalization failures are dropped silently. (An
element that fails raw-record deserialization instead aborts the whole parse,
per the counterexample.) -/
theorem c1_parse_drops_only_normalization_failures
    (value : Json) (title ext extractor extractor_key : String) (duration : ℚ)
    (jsonFormats : List Json)
    (h1 : (value.getField "title").bind Json.asStr = some title)
    (h2 : (value.getField "duration").bind Json.asNum = some duration)
    (h3 : (value.getField "ext").bind Json.asStr = some ext)
    (h4 : (value.getField "extractor").bind Json.asStr = some extractor)
    (h5 : (value.getField "extractor_key").bind Json.asStr = some extractor_key)
    (h6 : (value.getField "formats").bind Json.asArr = some jsonFormats)
    (h7 : ∀ j ∈ jsonFormats, ∃ raw, RawFileFormat.fromJson j = .ok raw) :
    FileDetails.deserialize value =
      .ok ⟨title, duration, ext, extractor, extractor_key,
        jsonFormats.filterMap fun j =>
          (RawFileFormat.fromJson j).toOption.bind fun raw =>
            (FileFormat.try_new raw duration).toOption⟩ := by
  unfold FileDetails.deserialize
  simp only [h1, h2, h3, h4, h5, h6, parseFormats_ok jsonFormats duration h7]

/-- C1 witness fixture: a variant that normalizes (direct filesize). -/
def c1GoodFormatJson : Json :=
  .obj [("format_id", .str "fmt1"), ("ext", .str "mp4"), ("filesize", .num 2048)]

/-- C1 witness fixture: a well-formed raw record on which normalization fails
(no filesize and no tbr). -/
def c1BadVariantJson : Json :=
  .obj [("format_id", .str "fmt2"), ("ext", .str "mp4")]

/-- C1 witness payload: required fields present, two raw-deserializable
variants of which only the first normalizes. -/
def c1WitnessPayload : Json :=
  .obj [("title", .str "t"), ("duration", .num 10), ("ext", .str "mp4"),
        ("extractor", .str "generic"), ("extractor_key", .str "Generic"),
        ("formats", .arr [c1GoodFormatJson, c1BadVariantJson])]

/-- Witness for the amended C1: the two-variant payload parses successfully
and keeps exactly the variant that normalized (the one lacking both filesize
and tbr is dropped silently). -/
theorem c1_parse_drops_only_normalization_failures_witness :
    FileDetails.deserialize c1WitnessPayload =
      .ok ⟨"t", 10, "mp4", "generic", "Generic",
        [⟨"fmt1", "mp4", none, FileSize.new 2048,
          FileEncoding.ofRaw ⟨"fmt1", "mp4", some 2048, "unknown", "unknown",
            none, none, none⟩⟩]⟩ :=
  c1_parse_drops_only_normalization_failures c1WitnessPayload "t" "mp4" "generic" "Generic"
    10 [c1GoodFormatJson, c1BadVariantJson] rfl rfl rfl rfl rfl rfl
    (by
      intro j hj
      simp only [List.mem_cons, List.not_mem_nil, or_false] at hj
      rcases hj with rfl | rfl
      · exact ⟨_, rfl⟩
      · exact ⟨_, rfl⟩)
